import Mathlib

set_option maxRecDepth 16000

/-!
Verification development for the Agentic-honeypot repository.

The Python sources are shallowly embedded as executable Lean definitions:
  - app/extraction/intel_extractor.py  (IntelligenceExtractor)
  - app/detection/scam_detector.py     (ScamDetector)
  - app/agent/ai_agent.py              (ConversationalAgent)
  - app/utils/session_manager.py       (Session)
  - app/main.py                        (handle_message, should_send_callback)

Text is modelled as String (with List Char as the working representation);
re.findall calls are modelled by specialized matchers that reproduce the
scanning, greediness and word-boundary backtracking of Python's re module
for the exact patterns used by the code (over the ASCII fragment of the
character classes; Char.toLower and Char.isAlphanum model str.lower and
the word classes on ASCII).  Python floats are modelled as rationals; all
scores reachable by the code are exact multiples of 1/20, where the float
and rational computations agree (checked against CPython for the boundary
value 0.6 arising in the prize-scam message).  The external OpenAI call,
the outbound HTTP callback, and random.choice are modelled as explicit
oracle parameters (an Option String generation outcome, a Bool flush
outcome, a Fin 4 fallback pick).
-/

namespace Honeypot

/-! ## Character and substring helpers -/

/-- Python regex word character (the ASCII fragment of re's default
Unicode word class): letter, digit or underscore. -/
def isWordChar (c : Char) : Bool := c.isAlphanum || c == '_'

/-- str.lower on the ASCII fragment. -/
def lowerChars (s : List Char) : List Char := s.map Char.toLower

/-- Boolean list-prefix test (needle, haystack). -/
def isPrefB : List Char → List Char → Bool
  | [], _ => true
  | _ :: _, [] => false
  | a :: as, b :: bs => a == b && isPrefB as bs

/-- Python substring containment, needle in haystack. -/
def containsSub (needle : List Char) : List Char → Bool
  | [] => isPrefB needle []
  | c :: t => isPrefB needle (c :: t) || containsSub needle t

/-- word in text for String arguments. -/
def containsStr (needle hay : String) : Bool := containsSub needle.toList hay.toList

/-! ## Maximal word-character runs

For the anchored patterns used by the code, such as a backslash-b
digit-run backslash-b pattern, every re.findall match must span exactly
one maximal run of word characters (word boundaries exist only at the two
ends of such a run), so findall over those patterns is: list the maximal
word runs in order, keep those satisfying the pattern body. -/

def wordRunsGo : List Char → List Char → List (List Char)
  | [], acc => if acc.isEmpty then [] else [acc.reverse]
  | c :: t, acc =>
    if isWordChar c then wordRunsGo t (c :: acc)
    else if acc.isEmpty then wordRunsGo t []
    else acc.reverse :: wordRunsGo t []

/-- The maximal runs of word characters of a text, in order. -/
def wordRuns (s : List Char) : List (List Char) := wordRunsGo s []

/-- The pattern body of extract_phone_numbers: exactly 10 digits, the
first one in 6..9. -/
def isPhoneRun (r : List Char) : Bool :=
  r.length == 10 && r.all Char.isDigit &&
    (match r with
     | c :: _ => decide ('6' ≤ c) && decide (c ≤ '9')
     | [] => false)

/-- The pattern body of extract_bank_accounts: 9 to 18 digits. -/
def isBankRun (r : List Char) : Bool :=
  decide (9 ≤ r.length) && decide (r.length ≤ 18) && r.all Char.isDigit

/-- The pattern body of extract_ifsc_codes: 4 uppercase letters, a
literal 0, 6 uppercase-or-digit characters. -/
def isIfscRun (r : List Char) : Bool :=
  r.length == 11 &&
  (r.take 4).all Char.isUpper &&
  (r.drop 4).take 1 == ['0'] &&
  ((r.drop 5).all fun c => c.isUpper || c.isDigit)

/-! ## findall for the handle-at-provider pattern

The extractor pattern class [a-zA-Z0-9._-] and the detector pattern class
of word characters, dot and hyphen denote the same ASCII character set. -/

def isUpiChar (c : Char) : Bool := c.isAlphanum || c == '.' || c == '_' || c == '-'

def optWord : Option Char → Bool
  | none => false
  | some c => isWordChar c

/-- A regex word boundary between two adjacent positions (none = text edge). -/
def boundaryB (a b : Option Char) : Bool := optWord a != optWord b

/-- Backtracking of the trailing greedy class-plus against the final word
boundary: given the candidate second run reversed and the character
following it, return the largest number of kept characters (at least 1)
after which a word boundary holds. -/
def upiShrink : List Char → Option Char → Option Nat
  | [], _ => none
  | c :: rest, after =>
    if boundaryB (some c) after then some (rest.length + 1)
    else upiShrink rest (some c)

/-- Attempt the anchored handle-at-provider pattern at the current
position; prev is the character just before it.  Returns the match and
the remaining text. -/
def tryUpi (prev : Option Char) (s : List Char) : Option (List Char × List Char) :=
  if !boundaryB prev s.head? then none
  else
    let run1 := s.takeWhile isUpiChar
    if run1.isEmpty then none
    else
      match s.drop run1.length with
      | '@' :: rest2 =>
        let run2 := rest2.takeWhile isUpiChar
        let rest3 := rest2.drop run2.length
        match upiShrink run2.reverse rest3.head? with
        | some k => some (run1 ++ '@' :: run2.take k, run2.drop k ++ rest3)
        | none => none
      | _ => none

/-- Left-to-right non-overlapping scan of re.findall; fuel bounds the
recursion (each step consumes at least one character). -/
def upiScan : Nat → Option Char → List Char → List (List Char)
  | 0, _, _ => []
  | Nat.succ fuel, prev, s =>
    match tryUpi prev s with
    | some (m, rest) => m :: upiScan fuel m.getLast? rest
    | none =>
      match s with
      | [] => []
      | c :: t => upiScan fuel (some c) t

/-- re.findall of the handle-at-provider pattern. -/
def upiFindall (s : List Char) : List (List Char) := upiScan s.length none s

/-! ## findall for the URL pattern -/

/-- A character excluded from the URL body: whitespace or one of the
explicitly excluded punctuation characters. -/
def isUrlStop (c : Char) : Bool :=
  c == ' ' || c == '\t' || c == '\n' || c == '\r' || c == '\x0b' || c == '\x0c' ||
  c == '<' || c == '>' || c == '\"' || c == '\x7b' || c == '\x7d' || c == '|' ||
  c == '\\' || c == '^' || c == '\x60' || c == '[' || c == ']'

/-- Strip a literal prefix, returning the remainder on success. -/
def stripPre : List Char → List Char → Option (List Char)
  | [], s => some s
  | _ :: _, [] => none
  | c :: p, d :: s => if c == d then stripPre p s else none

def httpsLit : List Char := ['h', 't', 't', 'p', 's', ':', '/', '/']

def httpLit : List Char := ['h', 't', 't', 'p', ':', '/', '/']

/-- Attempt the URL pattern at the current position (scheme with optional
s, then a nonempty greedy body). -/
def tryUrl (s : List Char) : Option (List Char × List Char) :=
  match stripPre httpsLit s with
  | some r =>
    let body := r.takeWhile fun c => !isUrlStop c
    if body.isEmpty then none else some (httpsLit ++ body, r.drop body.length)
  | none =>
    match stripPre httpLit s with
    | some r =>
      let body := r.takeWhile fun c => !isUrlStop c
      if body.isEmpty then none else some (httpLit ++ body, r.drop body.length)
    | none => none

def urlScan : Nat → List Char → List (List Char)
  | 0, _ => []
  | Nat.succ fuel, s =>
    match tryUrl s with
    | some (m, rest) => m :: urlScan fuel rest
    | none =>
      match s with
      | [] => []
      | _ :: t => urlScan fuel t

/-- re.findall of the URL pattern. -/
def urlFindall (s : List Char) : List (List Char) := urlScan s.length s

/-! ## IntelligenceExtractor (app/extraction/intel_extractor.py) -/

namespace IntelligenceExtractor

/-- The provider aliases of extract_upi_ids. -/
def upi_providers : List String :=
  ["paytm", "phonepe", "googlepay", "ybl",
   "axl", "oksbi", "okicici", "okhdfc",
   "gpay", "bhim", "upi"]

/-- extract_upi_ids: findall of the handle-at-provider pattern, keeping a
match when some provider alias occurs in the lower-cased match. -/
def extract_upi_ids (text : String) : List String :=
  ((upiFindall text.toList).filter fun m =>
      upi_providers.any fun p => containsSub p.toList (lowerChars m)).map
    fun m => String.mk m

/-- The keyword gate of extract_bank_accounts. -/
def bank_gate_words : List String := ["account", "acc", "ifsc", "bank"]

/-- True when some gate keyword occurs in the lower-cased text. -/
def bankKeywordHit (text : String) : Bool :=
  bank_gate_words.any fun w => containsSub w.toList (lowerChars text.toList)

/-- extract_bank_accounts: the 9-to-18-digit runs, but only when a gate
keyword occurs in the lower-cased text. -/
def extract_bank_accounts (text : String) : List String :=
  if bankKeywordHit text then
    ((wordRuns text.toList).filter isBankRun).map fun m => String.mk m
  else []

/-- extract_ifsc_codes. -/
def extract_ifsc_codes (text : String) : List String :=
  ((wordRuns text.toList).filter isIfscRun).map fun m => String.mk m

/-- extract_phone_numbers. -/
def extract_phone_numbers (text : String) : List String :=
  ((wordRuns text.toList).filter isPhoneRun).map fun m => String.mk m

/-- extract_urls. -/
def extract_urls (text : String) : List String :=
  (urlFindall text.toList).map fun m => String.mk m

/-- The bad_signs list of is_suspicious_url. -/
def bad_signs : List String :=
  ["bit.ly", "tinyurl", "goo.gl",
   "login", "verify", "confirm",
   ".tk", ".ml", ".ga", ".cf",
   "http://"]

/-- is_suspicious_url: some bad sign occurs in the lower-cased URL. -/
def is_suspicious_url (url : String) : Bool :=
  bad_signs.any fun s => containsSub s.toList (lowerChars url.toList)

/-- The dictionary returned by extract_all. -/
structure ExtractedData where
  upi_ids : List String
  bank_accounts : List String
  ifsc_codes : List String
  phone_numbers : List String
  urls : List String
  suspicious_urls : List String
deriving DecidableEq, Repr

/-- extract_all: the composition of the five sub-extractors plus the
suspicious-URL filter (the print statements have no semantic effect). -/
def extract_all (text : String) : ExtractedData :=
  let upi_ids := extract_upi_ids text
  let bank_accounts := extract_bank_accounts text
  let ifsc_codes := extract_ifsc_codes text
  let phone_numbers := extract_phone_numbers text
  let urls := extract_urls text
  let suspicious_urls := urls.filter fun u => is_suspicious_url u
  { upi_ids := upi_ids, bank_accounts := bank_accounts,
    ifsc_codes := ifsc_codes, phone_numbers := phone_numbers,
    urls := urls, suspicious_urls := suspicious_urls }

end IntelligenceExtractor

/-! ## ScamDetector (app/detection/scam_detector.py) -/

namespace ScamDetector

/-- The scam_keywords dictionary (insertion order preserved). -/
def scam_keywords : List (String × List String) :=
  [("prize", ["congratulations", "won", "winner", "prize", "lottery", "lucky draw"]),
   ("urgency", ["urgent", "immediately", "now", "hurry", "limited time", "expires"]),
   ("money", ["claim", "payment", "transfer", "send money", "pay", "rupees", "rs"]),
   ("verification", ["verify", "confirm", "update", "kyc", "account", "details"]),
   ("threat", ["blocked", "suspended", "unauthorized", "fraud", "security alert"])]

def confidence_threshold : ℚ := 6/10

/-- Total number of keywords in the lexicon (the code accumulates it over
the categories; it equals 30). -/
def total_keyword_count : Nat :=
  (scam_keywords.map fun kv => kv.2.length).sum

/-- Number of lexicon keywords occurring in the (already lower-cased)
message, summed over the categories. -/
def keyword_match_count (ml : List Char) : Nat :=
  (scam_keywords.map fun kv =>
    (kv.2.filter fun w => containsSub w.toList ml).length).sum

/-- check_keywords: matched over total, scaled by 3, clamped at 1. -/
def check_keywords (ml : List Char) : ℚ :=
  let score : ℚ :=
    if 0 < total_keyword_count then
      (keyword_match_count ml : ℚ) / (total_keyword_count : ℚ)
    else 0
  min (score * 3) 1

/-- has_url: re.search of the alternation of the two scheme literals,
www-dot, dot-com and dot-in, i.e. substring containment of one of them
(on the original-case message). -/
def has_url (m : List Char) : Bool :=
  containsSub "http://".toList m || containsSub "https://".toList m ||
  containsSub "www.".toList m || containsSub ".com".toList m ||
  containsSub ".in".toList m

/-- The provider aliases checked by has_upi_id. -/
def detector_providers : List String := ["paytm", "phonepe", "gpay", "ybl"]

/-- has_upi_id: some findall match of the handle-at-provider pattern
contains an at sign and one of four provider aliases (the detector's
character class of word characters, dot and hyphen is the same ASCII set
as the extractor's). -/
def has_upi_id (m : List Char) : Bool :=
  (upiFindall m).any fun mt =>
    containsSub ['@'] mt &&
    (detector_providers.any fun p => containsSub p.toList (lowerChars mt))

/-- has_phone_number: re.search of the 10-digit mobile pattern. -/
def has_phone_number (m : List Char) : Bool :=
  (wordRuns m).any isPhoneRun

/-- re.search of the bare 9-to-18-digit-run pattern. -/
def has_digit_run (m : List Char) : Bool :=
  (wordRuns m).any isBankRun

/-- check_patterns: additive pattern score, capped at 1 (computed on the
original-case message). -/
def check_patterns (m : List Char) : ℚ :=
  let score : ℚ :=
    (if has_url m then 3/10 else 0) + (if has_upi_id m then 3/10 else 0) +
    (if has_phone_number m then 2/10 else 0) + (if has_digit_run m then 2/10 else 0)
  min score 1

/-- identify_scam_type: first matching category on the lower-cased text. -/
def identify_scam_type (ml : List Char) : String :=
  if ["prize", "won", "lottery", "winner"].any (fun w => containsSub w.toList ml) then
    "prize_scam"
  else if ["verify", "confirm", "update", "click"].any (fun w => containsSub w.toList ml) then
    "phishing"
  else if ["work from home", "earn", "job", "part time"].any (fun w => containsSub w.toList ml) then
    "job_scam"
  else if ["payment", "transfer", "send money"].any (fun w => containsSub w.toList ml) then
    "payment_scam"
  else "unknown"

/-- Python round to 2 decimal places, modelled on rationals.  Every score
reachable by the code is a multiple of 1/20, on which rounding is the
identity, so the half-to-even versus half-up difference is immaterial. -/
def round2 (q : ℚ) : ℚ := ((⌊q * 100 + 1/2⌋ : ℤ) : ℚ) / 100

/-- The dictionary returned by detect_scam. -/
structure DetectionResult where
  is_scam : Bool
  confidence : ℚ
  scam_type : Option String
  message : String
deriving DecidableEq, Repr

/-- detect_scam. -/
def detect_scam (message : String) : DetectionResult :=
  let message_lower := lowerChars message.toList
  let keyword_score := check_keywords message_lower
  let pattern_score := check_patterns message.toList
  let final_score := (keyword_score + pattern_score) / 2
  let scam_type := identify_scam_type message_lower
  let is_scam : Bool := if confidence_threshold ≤ final_score then true else false
  { is_scam := is_scam,
    confidence := round2 final_score,
    scam_type := if is_scam then some scam_type else none,
    message := if is_scam then "Scam detected!" else "Message seems safe" }

end ScamDetector

/-! ## ConversationalAgent (app/agent/ai_agent.py)

The OpenAI chat call is an external capability; its outcome is modelled
as an Option String parameter (some reply = success, none = the raised
exception).  random.choice over the fallback list is modelled as a Fin 4
pick.  The persona string and the generation prompt are consumed only by
the external call and carry no session logic, so they are not modelled. -/

namespace ConversationalAgent

open IntelligenceExtractor

/-- One entry of conversation_history. -/
structure ChatMsg where
  role : String
  content : String
deriving DecidableEq, Repr

/-- The agent's mutable state: conversation_history plus all_extracted,
whose keys are exactly upi_ids, bank_accounts, phone_numbers, urls and
suspicious_urls (ifsc_codes is absent from all_extracted). -/
structure AgentState where
  conversation_history : List ChatMsg
  upi_ids : List String
  bank_accounts : List String
  phone_numbers : List String
  urls : List String
  suspicious_urls : List String
deriving DecidableEq, Repr

/-- The state built by the constructor. -/
def initialAgent : AgentState :=
  { conversation_history := [], upi_ids := [], bank_accounts := [],
    phone_numbers := [], urls := [], suspicious_urls := [] }

/-- The inner loop of update_extracted for one key: append each new item
not already present (membership is exact string equality, checked against
the growing list). -/
def addNew (cur new : List String) : List String :=
  new.foldl (fun acc item => if item ∈ acc then acc else acc ++ [item]) cur

/-- update_extracted: merge the freshly extracted data into all_extracted
for the five keys of all_extracted (ifsc_codes is dropped). -/
def update_extracted (st : AgentState) (d : ExtractedData) : AgentState :=
  { st with
    upi_ids := addNew st.upi_ids d.upi_ids,
    bank_accounts := addNew st.bank_accounts d.bank_accounts,
    phone_numbers := addNew st.phone_numbers d.phone_numbers,
    urls := addNew st.urls d.urls,
    suspicious_urls := addNew st.suspicious_urls d.suspicious_urls }

/-- The backup replies of _fallback. -/
def fallback_options : List String :=
  ["Haan, theek hai! Aur batao please?",
   "Accha! Yeh interesting hai, details batao?",
   "Samajh gaya, aage kya karna hai?",
   "Theek hai bhai, mujhe thoda time do?"]

/-- generate_response: record the inbound message, extract and merge its
indicators, then call the external generator; on success record and
return its reply, on failure return a fallback pick (scam_type only
parameterizes the prompt sent to the external call). -/
def generate_response (st : AgentState) (scammer_message : String)
    (_scam_type : String) (gen : Option String) (fb : Fin 4) :
    String × AgentState :=
  let st1 := { st with conversation_history :=
    st.conversation_history ++ [{ role := "user", content := scammer_message }] }
  let st2 := update_extracted st1 (extract_all scammer_message)
  match gen with
  | some reply =>
    (reply, { st2 with conversation_history :=
      st2.conversation_history ++ [{ role := "assistant", content := reply }] })
  | none => (fallback_options.get ⟨fb.val, fb.isLt⟩, st2)

end ConversationalAgent

/-! ## Session and the main message handler (app/utils/session_manager.py,
app/main.py) -/

open ConversationalAgent in
/-- The per-conversation Session object (the fields consumed by the
handler; created_at and conversation_id carry no logic).  scam_indicators
is always empty because detect_scam returns no indicators key. -/
structure Session where
  scam_detected : Bool
  confidence : ℚ
  scam_type : Option String
  scam_indicators : List String
  turn_count : Nat
  agent : Option AgentState
  callback_sent : Bool
deriving DecidableEq, Repr

/-- The session built by SessionManager.create_session. -/
def initialSession : Session :=
  { scam_detected := false, confidence := 0, scam_type := none,
    scam_indicators := [], turn_count := 0, agent := none,
    callback_sent := false }

open ConversationalAgent in
/-- Sum of list lengths over the values of get_extracted_intelligence
(the five keys of all_extracted). -/
def total_intel (a : AgentState) : Nat :=
  a.upi_ids.length + a.bank_accounts.length + a.phone_numbers.length +
  a.urls.length + a.suspicious_urls.length

/-- should_send_callback: scam confirmed, at least 3 turns, and either
some intelligence extracted or at least 5 turns.  It never consults
callback_sent. -/
def should_send_callback (s : Session) : Bool :=
  if !s.scam_detected then false
  else if s.turn_count < 3 then false
  else if (match s.agent with
           | some a => decide (0 < total_intel a)
           | none => false) then true
  else if 5 ≤ s.turn_count then true
  else false

/-- The first-message branch of handle_message: when turn_count is 0, run
detect_scam and store its verdict (detection.get of the absent indicators
key yields the empty list). -/
def classifyStep (s : Session) (text : String) : Session :=
  if s.turn_count == 0 then
    let d := ScamDetector.detect_scam text
    { s with scam_detected := d.is_scam, confidence := d.confidence,
             scam_type := d.scam_type, scam_indicators := [] }
  else s

/-- The neutral reply of the not-scam branch. -/
def neutralReply : String :=
  "I\x27m sorry, I don\x27t understand. Could you please clarify?"

/-- The observable outcome of one handle_message call: the new session,
the returned reply, and whether send_final_callback was invoked. -/
structure TurnOutput where
  session : Session
  reply : String
  report_issued : Bool
deriving DecidableEq, Repr

open ConversationalAgent in
/-- handle_message for one inbound message on one session: classify on
the first turn, engage the agent when scam_detected (creating it on
demand; Python's scam_type or-default supplies unknown for None),
otherwise answer neutrally; increment turn_count; then, when
should_send_callback holds, invoke the external report call, and on a
successful flush (flush_ok) set callback_sent. -/
def handle_message (s0 : Session) (text : String) (gen : Option String)
    (fb : Fin 4) (flush_ok : Bool) : TurnOutput :=
  let s1 := classifyStep s0 text
  let rs :=
    if s1.scam_detected then
      let agent := s1.agent.getD initialAgent
      let ra := generate_response agent text (s1.scam_type.getD "unknown") gen fb
      (ra.1, { s1 with agent := some ra.2 })
    else
      (neutralReply, s1)
  let s3 := { rs.2 with turn_count := rs.2.turn_count + 1 }
  if should_send_callback s3 then
    { session := if flush_ok then { s3 with callback_sent := true } else s3,
      reply := rs.1, report_issued := true }
  else
    { session := s3, reply := rs.1, report_issued := false }

/-- Deterministic multi-turn driver: the external generator always fails
(so the turn logic is exercised without the opaque reply text), flushes
always succeed, the fallback pick is 0.  Returns the final session and
the number of report calls issued. -/
def runNoGen : Session → List String → Session × Nat
  | s, [] => (s, 0)
  | s, t :: ts =>
    let o := handle_message s t none ⟨0, by decide⟩ true
    let r := runNoGen o.session ts
    (r.1, (if o.report_issued then 1 else 0) + r.2)

/-! ## Concrete inputs used by the claims -/

/-- The prize-scam test message of the spec. -/
def prizeMsg : String :=
  "Congratulations! You won Rs 50,000 in lucky draw! Send Rs 500 to 9876543210 at paytm-handle to claim. Hurry, offer expires today!"

/-- The benign test message of the spec. -/
def greetingMsg : String := "Hello, how are you? Nice weather today!"

/-- The provider part of a handle: the text after the first at sign. -/
def providerPart (s : String) : String :=
  String.mk ((s.toList.dropWhile fun c => c != '@').drop 1)

open ConversationalAgent in
/-- A mid-conversation engaging session (scam confirmed on turn 1, agent
active), used to witness the failure-semantics theorem. -/
def engagingSession : Session :=
  { scam_detected := true, confidence := 1, scam_type := some "prize_scam",
    scam_indicators := [], turn_count := 1, agent := some initialAgent,
    callback_sent := false }

/-! ## Helper lemmas about the merge addNew -/

namespace ConversationalAgent

theorem mem_addNew_of_mem_left {x : String} :
    ∀ (l acc : List String), x ∈ acc → x ∈ addNew acc l := by
  intro l
  induction l with
  | nil => intro acc h; exact h
  | cons a t ih =>
    intro acc h
    show x ∈ addNew (if a ∈ acc then acc else acc ++ [a]) t
    apply ih
    by_cases ha : a ∈ acc
    · simpa [ha] using h
    · simp [ha, List.mem_append, h]

theorem mem_addNew_of_mem_right {x : String} :
    ∀ (l acc : List String), x ∈ l → x ∈ addNew acc l := by
  intro l
  induction l with
  | nil => intro acc h; cases h
  | cons a t ih =>
    intro acc h
    show x ∈ addNew (if a ∈ acc then acc else acc ++ [a]) t
    rcases List.mem_cons.mp h with rfl | hx
    · apply mem_addNew_of_mem_left
      by_cases ha : x ∈ acc <;> simp [ha]
    · exact ih _ hx

theorem addNew_eq_of_subset :
    ∀ (l acc : List String), (∀ x ∈ l, x ∈ acc) → addNew acc l = acc := by
  intro l
  induction l with
  | nil => intro acc _; rfl
  | cons a t ih =>
    intro acc h
    show addNew (if a ∈ acc then acc else acc ++ [a]) t = acc
    have ha : a ∈ acc := h a (by simp)
    rw [if_pos ha]
    exact ih acc fun x hx => h x (by simp [hx])

/-- Merging the same batch a second time changes nothing. -/
theorem addNew_idem (acc l : List String) :
    addNew (addNew acc l) l = addNew acc l :=
  addNew_eq_of_subset l (addNew acc l) fun _ hx => mem_addNew_of_mem_right l acc hx

/-- addNew preserves duplicate-freedom of the accumulator. -/
theorem addNew_nodup :
    ∀ (l acc : List String), acc.Nodup → (addNew acc l).Nodup := by
  intro l
  induction l with
  | nil => intro acc h; exact h
  | cons a t ih =>
    intro acc h
    show (addNew (if a ∈ acc then acc else acc ++ [a]) t).Nodup
    apply ih
    by_cases ha : a ∈ acc
    · simpa [ha] using h
    · simp [ha, List.nodup_append, h]

end ConversationalAgent

/-! ## Evaluation lemmas for detect_scam -/

namespace ScamDetector

theorem is_scam_iff (msg : String) :
    (detect_scam msg).is_scam = true ↔
      confidence_threshold ≤
        (check_keywords (lowerChars msg.toList) + check_patterns msg.toList) / 2 := by
  simp only [detect_scam]
  split
  · simpa using ‹_›
  · simpa using not_le.mp ‹_›

theorem scam_type_eq (msg : String) :
    (detect_scam msg).scam_type =
      if (detect_scam msg).is_scam then
        some (identify_scam_type (lowerChars msg.toList))
      else none := rfl

theorem confidence_eq (msg : String) :
    (detect_scam msg).confidence =
      round2 ((check_keywords (lowerChars msg.toList) + check_patterns msg.toList) / 2) :=
  rfl

theorem check_patterns_le_one (m : List Char) : check_patterns m ≤ 1 :=
  min_le_right _ _

theorem check_keywords_of_no_match {ml : List Char}
    (h : keyword_match_count ml = 0) : check_keywords ml = 0 := by
  simp only [check_keywords, h]
  norm_num [total_keyword_count, scam_keywords, min_def]

/-! ### Evaluation on the prize-scam message -/

theorem prize_kw : keyword_match_count (lowerChars prizeMsg.toList) = 8 := by decide

theorem prize_ck : check_keywords (lowerChars prizeMsg.toList) = 4/5 := by
  simp only [check_keywords, prize_kw]
  norm_num [total_keyword_count, scam_keywords, min_def]

theorem prize_cp : check_patterns prizeMsg.toList = 2/5 := by
  have h1 : has_url prizeMsg.toList = false := by decide
  have h2 : has_upi_id prizeMsg.toList = false := by decide
  have h3 : has_phone_number prizeMsg.toList = true := by decide
  have h4 : has_digit_run prizeMsg.toList = true := by decide
  simp only [check_patterns, h1, h2, h3, h4]
  norm_num [min_def]

theorem prize_is_scam : (detect_scam prizeMsg).is_scam = true := by
  rw [is_scam_iff, prize_ck, prize_cp]
  norm_num [confidence_threshold]

theorem prize_type : (detect_scam prizeMsg).scam_type = some "prize_scam" := by
  have h : identify_scam_type (lowerChars prizeMsg.toList) = "prize_scam" := by decide
  rw [scam_type_eq, prize_is_scam, h]
  simp

theorem prize_conf : (detect_scam prizeMsg).confidence = 3/5 := by
  rw [confidence_eq, prize_ck, prize_cp]
  norm_num [round2]

end ScamDetector

/-! ## Claim theorems -/

open IntelligenceExtractor ConversationalAgent ScamDetector

/-- C3: for every text containing a standalone 9-to-18-digit run but
none of the account/acc/ifsc/bank gate keywords (checked
case-insensitively), extract_bank_accounts returns the empty list:
digit runs reach bankAccounts only when a gate keyword is present. -/
theorem bank_accounts_require_keyword (text : String)
    (_hrun : has_digit_run text.toList = true)
    (hkw : bankKeywordHit text = false) :
    extract_bank_accounts text = [] := by
  simp [extract_bank_accounts, hkw]

theorem bank_accounts_require_keyword_witness :
    has_digit_run "pay 123456789 now".toList = true ∧
    bankKeywordHit "pay 123456789 now" = false ∧
    extract_bank_accounts "pay 123456789 now" = [] :=
  ⟨by decide, by decide,
   bank_accounts_require_keyword "pay 123456789 now" (by decide) (by decide)⟩

/-- C4: the prize-scam test message is classified as a scam of category
prize_scam with confidence at least 0.6. -/
theorem prize_message_flagged :
    (detect_scam prizeMsg).is_scam = true ∧
    (detect_scam prizeMsg).scam_type = some "prize_scam" ∧
    (6/10 : ℚ) ≤ (detect_scam prizeMsg).confidence := by
  refine ⟨prize_is_scam, prize_type, ?_⟩
  rw [prize_conf]
  norm_num

/-- C5 counterexample: the extractor keeps a match as soon as some
provider alias occurs anywhere in it; paytm-at-gmail is kept although its
provider part, gmail, is not a known payment-app alias, refuting the
claim that membership requires the after-at part to be whitelisted. -/
theorem upi_alias_not_provider_part :
    "paytm@gmail" ∈ extract_upi_ids "send to paytm@gmail now" ∧
    providerPart "paytm@gmail" = "gmail" ∧
    "gmail" ∉ upi_providers :=
  ⟨by decide, by decide, by decide⟩

/-- C5 (amended): a string is in paymentHandles iff it is a findall
match of the handle-at-provider pattern and some known payment-app alias
occurs as a substring of its lower-casing (anywhere in the match, not
necessarily as the after-at provider part); in particular a text with
name-at-phonepe yields that handle and one with name-at-unknownprovider
yields nothing. -/
theorem upi_membership_characterization :
    (∀ (text m : String),
       m ∈ extract_upi_ids text ↔
         m.toList ∈ upiFindall text.toList ∧
         (upi_providers.any fun p => containsSub p.toList (lowerChars m.toList)) = true) ∧
    "name@phonepe" ∈ extract_upi_ids "pay name@phonepe today" ∧
    "name@unknownprovider" ∉ extract_upi_ids "pay name@unknownprovider today" := by
  refine ⟨fun text m => ?_, by decide, by decide⟩
  simp only [extract_upi_ids, List.mem_map, List.mem_filter]
  constructor
  · rintro ⟨l, ⟨hl, hp⟩, rfl⟩
    exact ⟨hl, hp⟩
  · rintro ⟨hl, hp⟩
    exact ⟨m.toList, ⟨hl, hp⟩, rfl⟩

/-- C6: a message with zero matches against the keyword lexicon is never
flagged: the pattern score alone is capped at 1, so the mean stays at or
below 0.5, under the 0.6 threshold, and the exposed category is null. -/
theorem no_keyword_means_not_flagged (msg : String)
    (h : keyword_match_count (lowerChars msg.toList) = 0) :
    (detect_scam msg).is_scam = false ∧ (detect_scam msg).scam_type = none := by
  have hk := check_keywords_of_no_match h
  have hp := check_patterns_le_one msg.toList
  have hlt : ¬ (confidence_threshold ≤
      (check_keywords (lowerChars msg.toList) + check_patterns msg.toList) / 2) := by
    rw [hk]
    simp only [confidence_threshold]
    intro hle
    linarith
  have hs : (detect_scam msg).is_scam = false := by
    cases hb : (detect_scam msg).is_scam
    · rfl
    · exact absurd ((is_scam_iff msg).mp hb) hlt
  refine ⟨hs, ?_⟩
  rw [scam_type_eq, hs]
  simp

theorem no_keyword_means_not_flagged_witness :
    (keyword_match_count (lowerChars greetingMsg.toList) = 0 ∧
     (detect_scam greetingMsg).is_scam = false ∧
     (detect_scam greetingMsg).scam_type = none) ∧
    (keyword_match_count (lowerChars "".toList) = 0 ∧
     (detect_scam "").is_scam = false ∧
     (detect_scam "").scam_type = none) :=
  ⟨⟨by decide, no_keyword_means_not_flagged greetingMsg (by decide)⟩,
   ⟨by decide, no_keyword_means_not_flagged "" (by decide)⟩⟩

/-- C7 counterexample: findall keeps repeats, so a text repeating the
same phone number yields a phoneNumbers list with a duplicate, refuting
per-category uniqueness of the extractAll result. -/
theorem extract_all_phone_duplicate :
    (extract_all "9876543210 9876543210").phone_numbers
      = ["9876543210", "9876543210"] ∧
    ¬ (extract_all "9876543210 9876543210").phone_numbers.Nodup :=
  ⟨rfl, by decide⟩

/-- C7 (amended): the five category lists of extractAll keep discovery
order but may repeat a value; uniqueness is enforced by the session
merge: merging an extractAll result into the empty cumulative indicator
set yields duplicate-free lists in every category. -/
theorem merged_lists_nodup (t : String) :
    (update_extracted initialAgent (extract_all t)).upi_ids.Nodup ∧
    (update_extracted initialAgent (extract_all t)).bank_accounts.Nodup ∧
    (update_extracted initialAgent (extract_all t)).phone_numbers.Nodup ∧
    (update_extracted initialAgent (extract_all t)).urls.Nodup ∧
    (update_extracted initialAgent (extract_all t)).suspicious_urls.Nodup := by
  simp only [update_extracted, initialAgent]
  exact ⟨addNew_nodup _ _ List.nodup_nil, addNew_nodup _ _ List.nodup_nil,
         addNew_nodup _ _ List.nodup_nil, addNew_nodup _ _ List.nodup_nil,
         addNew_nodup _ _ List.nodup_nil⟩

/-- C8: extraction is deterministic, and the merge satisfies the dedup
law: merging one extractAll result into the empty cumulative set twice
gives exactly the state reached by merging it once (dedup is by exact
string equality in addNew). -/
theorem extract_deterministic_merge_dedup (t : String) :
    extract_all t = extract_all t ∧
    update_extracted (update_extracted initialAgent (extract_all t)) (extract_all t)
      = update_extracted initialAgent (extract_all t) := by
  refine ⟨rfl, ?_⟩
  simp [update_extracted, initialAgent, AgentState.mk.injEq, addNew_idem]

/-- C10: when the text contains a bank-gate keyword and a standalone
10-digit run starting with 6 to 9, that run is returned both in
phoneNumbers and in bankAccounts: the keyword gate does not exclude
phone-shaped numbers from bankAccounts. -/
theorem phone_shaped_run_in_both (text : String) (r : List Char)
    (hmem : r ∈ wordRuns text.toList)
    (hphone : isPhoneRun r = true)
    (hkw : bankKeywordHit text = true) :
    String.mk r ∈ (extract_all text).phone_numbers ∧
    String.mk r ∈ (extract_all text).bank_accounts := by
  have hsplit := hphone
  simp only [isPhoneRun, Bool.and_eq_true, beq_iff_eq] at hsplit
  obtain ⟨⟨hlen, hdig⟩, _⟩ := hsplit
  have hbank : isBankRun r = true := by
    simp [isBankRun, hlen, hdig]
  constructor
  · simp only [extract_all, extract_phone_numbers]
    exact List.mem_map_of_mem _ (List.mem_filter.mpr ⟨hmem, hphone⟩)
  · simp only [extract_all, extract_bank_accounts, hkw, if_true]
    exact List.mem_map_of_mem _ (List.mem_filter.mpr ⟨hmem, hbank⟩)

/-! ## Session-machine helper lemmas -/

theorem greeting_not_scam : (detect_scam greetingMsg).is_scam = false := by
  have hk := check_keywords_of_no_match
    (show keyword_match_count (lowerChars greetingMsg.toList) = 0 by decide)
  have hp := check_patterns_le_one greetingMsg.toList
  cases hb : (detect_scam greetingMsg).is_scam
  · rfl
  · have := (is_scam_iff greetingMsg).mp hb
    rw [hk] at this
    simp only [confidence_threshold] at this
    linarith

theorem classifyStep_agent (s : Session) (text : String) :
    (classifyStep s text).agent = s.agent := by
  simp only [classifyStep]
  split <;> rfl

theorem classifyStep_skip (s : Session) (text : String) (h : s.turn_count ≠ 0) :
    classifyStep s text = s := by
  simp only [classifyStep, beq_iff_eq]
  exact if_neg h

/-- In the not-scam branch the handler only increments the turn counter
and replies neutrally; no report call is issued. -/
theorem handle_message_not_scam (s : Session) (text : String) (gen : Option String)
    (fb : Fin 4) (fl : Bool)
    (h : (classifyStep s text).scam_detected = false) :
    handle_message s text gen fb fl =
      { session := { classifyStep s text with
                     turn_count := (classifyStep s text).turn_count + 1 },
        reply := neutralReply, report_issued := false } := by
  simp only [handle_message, h, Bool.false_eq_true, if_false]
  simp [should_send_callback]

/-- In the scam branch the handler stores the generate_response state,
increments the turn counter and returns the generated reply. -/
theorem handle_message_scam (s : Session) (text : String) (gen : Option String)
    (fb : Fin 4) (fl : Bool)
    (h : (classifyStep s text).scam_detected = true) :
    (handle_message s text gen fb fl).session.agent =
      some (generate_response ((classifyStep s text).agent.getD initialAgent) text
             (((classifyStep s text).scam_type).getD "unknown") gen fb).2 ∧
    (handle_message s text gen fb fl).session.turn_count
      = (classifyStep s text).turn_count + 1 ∧
    (handle_message s text gen fb fl).reply =
      (generate_response ((classifyStep s text).agent.getD initialAgent) text
        (((classifyStep s text).scam_type).getD "unknown") gen fb).1 := by
  simp only [handle_message, h, if_true]
  split <;> (try split) <;> simp

/-- Whatever the generation outcome, the state left by generate_response
carries the merge of the previous indicators with the fresh extraction. -/
theorem gen_snd_fields (st : AgentState) (text : String) (ty : String)
    (gen : Option String) (fb : Fin 4) :
    (generate_response st text ty gen fb).2.upi_ids
        = addNew st.upi_ids (extract_all text).upi_ids ∧
    (generate_response st text ty gen fb).2.bank_accounts
        = addNew st.bank_accounts (extract_all text).bank_accounts ∧
    (generate_response st text ty gen fb).2.phone_numbers
        = addNew st.phone_numbers (extract_all text).phone_numbers ∧
    (generate_response st text ty gen fb).2.urls
        = addNew st.urls (extract_all text).urls ∧
    (generate_response st text ty gen fb).2.suspicious_urls
        = addNew st.suspicious_urls (extract_all text).suspicious_urls := by
  cases gen <;> simp [generate_response, update_extracted]

/-! ## Orchestration claim theorems -/

/-- C1: evaluation of the code at the failing input.  With the prize
message on turn 1 (which already yields one phone-number indicator) and
filler turns after it, the completion criteria hold from turn 3 on and
should_send_callback never consults callback_sent, so the 3-turn
conversation flushes once (callback_sent set), and the 4th turn issues a
second report call: two calls in total, refuting at-most-once flushing. -/
theorem duplicate_flush_on_fourth_turn :
    (runNoGen initialSession [prizeMsg, "ok", "ok"]).1.callback_sent = true ∧
    (runNoGen initialSession [prizeMsg, "ok", "ok"]).2 = 1 ∧
    (runNoGen initialSession [prizeMsg, "ok", "ok", "ok"]).2 = 2 := by
  have e1 : extract_all prizeMsg =
      { upi_ids := [], bank_accounts := [], ifsc_codes := [],
        phone_numbers := ["9876543210"], urls := [], suspicious_urls := [] } := rfl
  have e2 : extract_all "ok" =
      { upi_ids := [], bank_accounts := [], ifsc_codes := [],
        phone_numbers := [], urls := [], suspicious_urls := [] } := rfl
  refine ⟨?_, ?_, ?_⟩ <;>
    simp [runNoGen, handle_message, classifyStep, should_send_callback,
          generate_response, update_extracted, addNew, total_intel,
          initialSession, initialAgent, prize_is_scam, prize_type, e1, e2]

/-- C2 counterexample: a conversation classified not-scam on turn 1
(the greeting) receives a message that carries an extractable payment
handle, yet the session still has no agent afterwards — the extractor
was never run and nothing was merged, refuting extraction-on-every-
message. -/
theorem not_scam_turn_skips_extraction :
    (extract_all "My UPI is ramesh@phonepe").upi_ids = ["ramesh@phonepe"] ∧
    (handle_message (handle_message initialSession greetingMsg none ⟨0, by decide⟩ true).session
       "My UPI is ramesh@phonepe" none ⟨0, by decide⟩ true).session.agent = none := by
  refine ⟨rfl, ?_⟩
  simp [handle_message, classifyStep, should_send_callback, initialSession,
        greeting_not_scam]

/-- C2 (amended): the entity extractor runs on the inbound message — and
its results are merged into the cumulative indicators — exactly when the
session is (or is classified on turn 1 as) a scam session; on a not-scam
session no extraction or merge happens at all (the indicator-carrying
agent is never even created). -/
theorem extraction_only_on_scam_sessions (s : Session) (text : String)
    (gen : Option String) (fb : Fin 4) (fl : Bool) :
    ((classifyStep s text).scam_detected = true →
      (((handle_message s text gen fb fl).session.agent.getD initialAgent).upi_ids
         = addNew (((classifyStep s text).agent.getD initialAgent).upi_ids)
             (extract_all text).upi_ids ∧
       ((handle_message s text gen fb fl).session.agent.getD initialAgent).bank_accounts
         = addNew (((classifyStep s text).agent.getD initialAgent).bank_accounts)
             (extract_all text).bank_accounts ∧
       ((handle_message s text gen fb fl).session.agent.getD initialAgent).phone_numbers
         = addNew (((classifyStep s text).agent.getD initialAgent).phone_numbers)
             (extract_all text).phone_numbers ∧
       ((handle_message s text gen fb fl).session.agent.getD initialAgent).urls
         = addNew (((classifyStep s text).agent.getD initialAgent).urls)
             (extract_all text).urls ∧
       ((handle_message s text gen fb fl).session.agent.getD initialAgent).suspicious_urls
         = addNew (((classifyStep s text).agent.getD initialAgent).suspicious_urls)
             (extract_all text).suspicious_urls)) ∧
    ((classifyStep s text).scam_detected = false →
      (handle_message s text gen fb fl).session.agent = s.agent) := by
  constructor
  · intro h
    obtain ⟨ha, -, -⟩ := handle_message_scam s text gen fb fl h
    rw [ha]
    simpa using gen_snd_fields ((classifyStep s text).agent.getD initialAgent) text
      (((classifyStep s text).scam_type).getD "unknown") gen fb
  · intro h
    rw [handle_message_not_scam s text gen fb fl h]
    simpa using classifyStep_agent s text

theorem extraction_only_on_scam_sessions_witness :
    (classifyStep initialSession prizeMsg).scam_detected = true ∧
    ((handle_message initialSession prizeMsg none ⟨0, by decide⟩ true).session.agent.getD
        initialAgent).phone_numbers
      = addNew (((classifyStep initialSession prizeMsg).agent.getD initialAgent).phone_numbers)
          (extract_all prizeMsg).phone_numbers ∧
    (classifyStep initialSession greetingMsg).scam_detected = false ∧
    (handle_message initialSession greetingMsg none ⟨0, by decide⟩ true).session.agent
      = initialSession.agent := by
  have h1 : (classifyStep initialSession prizeMsg).scam_detected = true := by
    simp [classifyStep, initialSession, prize_is_scam]
  have h2 : (classifyStep initialSession greetingMsg).scam_detected = false := by
    simp [classifyStep, initialSession, greeting_not_scam]
  exact ⟨h1,
    ((extraction_only_on_scam_sessions initialSession prizeMsg none ⟨0, by decide⟩ true).1
      h1).2.2.1,
    h2,
    (extraction_only_on_scam_sessions initialSession greetingMsg none ⟨0, by decide⟩ true).2
      h2⟩

/-- C9: when the external generator fails (gen = none) on an engaging
turn (scam session past turn 1), the turn still completes: the reply is
one of the fixed fallback options, the indicators extracted from the
inbound text are still merged into the cumulative sets, and the turn
counter is still incremented. -/
theorem generation_failure_still_advances (s : Session) (text : String)
    (fb : Fin 4) (fl : Bool)
    (h0 : s.turn_count ≠ 0) (hs : s.scam_detected = true) :
    (handle_message s text none fb fl).reply ∈ fallback_options ∧
    ((handle_message s text none fb fl).session.agent.getD initialAgent).upi_ids
       = addNew ((s.agent.getD initialAgent).upi_ids) (extract_all text).upi_ids ∧
    ((handle_message s text none fb fl).session.agent.getD initialAgent).bank_accounts
       = addNew ((s.agent.getD initialAgent).bank_accounts) (extract_all text).bank_accounts ∧
    ((handle_message s text none fb fl).session.agent.getD initialAgent).phone_numbers
       = addNew ((s.agent.getD initialAgent).phone_numbers) (extract_all text).phone_numbers ∧
    ((handle_message s text none fb fl).session.agent.getD initialAgent).urls
       = addNew ((s.agent.getD initialAgent).urls) (extract_all text).urls ∧
    ((handle_message s text none fb fl).session.agent.getD initialAgent).suspicious_urls
       = addNew ((s.agent.getD initialAgent).suspicious_urls) (extract_all text).suspicious_urls ∧
    (handle_message s text none fb fl).session.turn_count = s.turn_count + 1 := by
  have hcs := classifyStep_skip s text h0
  have hs' : (classifyStep s text).scam_detected = true := by rw [hcs]; exact hs
  obtain ⟨ha, ht, hr⟩ := handle_message_scam s text none fb fl hs'
  have hfields := gen_snd_fields ((classifyStep s text).agent.getD initialAgent) text
      (((classifyStep s text).scam_type).getD "unknown") none fb
  rw [hcs] at ha ht hfields
  refine ⟨?_, ?_, ?_, ?_, ?_, ?_, by rw [ht]⟩
  · rw [hr, hcs]
    simp [generate_response]
  all_goals rw [ha]; simp only [Option.getD_some]
  · exact hfields.1
  · exact hfields.2.1
  · exact hfields.2.2.1
  · exact hfields.2.2.2.1
  · exact hfields.2.2.2.2

theorem generation_failure_still_advances_witness :
    engagingSession.turn_count ≠ 0 ∧
    engagingSession.scam_detected = true ∧
    ((handle_message engagingSession "call 9876543210" none ⟨0, by decide⟩ true).reply
        ∈ fallback_options ∧
     ((handle_message engagingSession "call 9876543210" none ⟨0, by decide⟩ true).session.agent.getD
         initialAgent).upi_ids
       = addNew ((engagingSession.agent.getD initialAgent).upi_ids)
           (extract_all "call 9876543210").upi_ids ∧
     ((handle_message engagingSession "call 9876543210" none ⟨0, by decide⟩ true).session.agent.getD
         initialAgent).bank_accounts
       = addNew ((engagingSession.agent.getD initialAgent).bank_accounts)
           (extract_all "call 9876543210").bank_accounts ∧
     ((handle_message engagingSession "call 9876543210" none ⟨0, by decide⟩ true).session.agent.getD
         initialAgent).phone_numbers
       = addNew ((engagingSession.agent.getD initialAgent).phone_numbers)
           (extract_all "call 9876543210").phone_numbers ∧
     ((handle_message engagingSession "call 9876543210" none ⟨0, by decide⟩ true).session.agent.getD
         initialAgent).urls
       = addNew ((engagingSession.agent.getD initialAgent).urls)
           (extract_all "call 9876543210").urls ∧
     ((handle_message engagingSession "call 9876543210" none ⟨0, by decide⟩ true).session.agent.getD
         initialAgent).suspicious_urls
       = addNew ((engagingSession.agent.getD initialAgent).suspicious_urls)
           (extract_all "call 9876543210").suspicious_urls ∧
     (handle_message engagingSession "call 9876543210" none ⟨0, by decide⟩ true).session.turn_count
       = engagingSession.turn_count + 1) :=
  ⟨by decide, by decide,
   generation_failure_still_advances engagingSession "call 9876543210" ⟨0, by decide⟩ true
     (by decide) (by decide)⟩

theorem phone_shaped_run_in_both_witness :
    "9876543210".toList ∈ wordRuns "bank 9876543210".toList ∧
    isPhoneRun "9876543210".toList = true ∧
    bankKeywordHit "bank 9876543210" = true ∧
    ("9876543210" ∈ (extract_all "bank 9876543210").phone_numbers ∧
     "9876543210" ∈ (extract_all "bank 9876543210").bank_accounts) :=
  ⟨by decide, by decide, by decide,
   phone_shaped_run_in_both "bank 9876543210" "9876543210".toList
     (by decide) (by decide) (by decide)⟩

end Honeypot
